import Mathlib

/-
  Verification of the AI Provider Fallback Orchestrator of the
  Food-Recipe-Spoonacular full-stack application.

  The subsystem under study is the consolidated Next.js API route handler
  (the large catch-all route file): the four AI endpoints
  /api/ai/search, /api/ai/recommendations, /api/ai/analysis and
  /api/ai/modifications, each of which tries an ordered chain of LLM
  providers, extracts a JSON object from the provider's free-form text,
  and falls back to a deterministic rule-based result when every provider
  fails.

  Modelling conventions (shallow embedding):
  * JSON values are the inductive `Json` below; numbers are modelled as
    integers (every numeric literal appearing in the modelled code paths
    is integral).  The extra constructor `nan` models the JavaScript NaN
    value that `parseInt` can produce.
  * `JSON.parse` is modelled by the executable parser `jsParse`, covering
    the JSON fragment exercised by the handlers (objects, arrays,
    strings with the common escapes, integer numbers, true/false/null);
    JSON.parse's whole-string requirement is modelled faithfully.
  * The two regular expressions used by the handlers are modelled as
    string scanning functions: `braceMatch` models the greedy brace
    pattern (first opening brace through the last closing brace) and
    `fenceMatch` models the json code-fence pattern (lazy interior:
    from the first fence opener to the first subsequent triple backtick,
    interior whitespace-trimmed, returned together with the whole match).
  * An outbound provider HTTP call is an `Outcome`: a thrown network
    error, or a response with its `ok` flag and the text content already
    projected out of the vendor JSON (the handlers read
    `choices[0].message.content || "{}"` resp.
    `candidates[0].content.parts[0].text || "{}"`; the oracle supplies
    that post-default string).
  * JavaScript truthiness drives the chain guards (`if (key && !result)`)
    and the fallback guards (`if (!result)`); `Json.falsy` and `truthy`
    model it.
-/

namespace RecipeAI

mutual

/-- JSON values.  Numbers are modelled as integers; `nan` models the
JavaScript NaN number (typeof number, falsy, not produced by `jsParse`).
Arrays and objects carry their own list types so that decidable equality
can be derived. -/
inductive Json where
  | null
  | nan
  | bool (b : Bool)
  | num (n : Int)
  | str (s : String)
  | arr (elems : JsonList)
  | obj (fields : JsonFields)

/-- A list of JSON values (array elements). -/
inductive JsonList where
  | nil
  | cons (head : Json) (tail : JsonList)

/-- An ordered list of key/value bindings (object fields). -/
inductive JsonFields where
  | nil
  | cons (key : String) (val : Json) (tail : JsonFields)

end

deriving instance DecidableEq for Json
deriving instance DecidableEq for JsonList
deriving instance DecidableEq for JsonFields

/-- Build a `JsonList` from a Lean list. -/
def JsonList.ofList : List Json → JsonList
  | [] => .nil
  | x :: xs => .cons x (JsonList.ofList xs)

/-- Build `JsonFields` from a Lean association list. -/
def JsonFields.ofList : List (String × Json) → JsonFields
  | [] => .nil
  | (k, v) :: xs => .cons k v (JsonFields.ofList xs)

/-- Array-of-list smart constructor. -/
def Json.arrL (elems : List Json) : Json := Json.arr (JsonList.ofList elems)

/-- Object-of-list smart constructor. -/
def Json.objL (fields : List (String × Json)) : Json := Json.obj (JsonFields.ofList fields)

/-- First binding of a key among object fields (property access on
objects whose keys are pairwise distinct). -/
def JsonFields.lookup : JsonFields → String → Option Json
  | .nil, _ => none
  | .cons k v rest, key => if k = key then some v else JsonFields.lookup rest key

/-- The keys of the fields, in insertion order. -/
def JsonFields.keyList : JsonFields → List String
  | .nil => []
  | .cons k _ rest => k :: JsonFields.keyList rest

/-- JavaScript falsiness of a JSON value: null, NaN, false, 0 and the
empty string are falsy; every object and array is truthy. -/
def Json.falsy : Json → Bool
  | .null => true
  | .nan => true
  | .bool b => !b
  | .num n => n == 0
  | .str s => s == ""
  | .arr _ => false
  | .obj _ => false

/-- Truthiness of a JavaScript variable that may also be null/undefined
(modelled as `none`). -/
def truthy : Option Json → Bool
  | none => false
  | some v => !v.falsy

/-- Property access `j.k` on a parsed JSON object. -/
def Json.get? : Json → String → Option Json
  | .obj fields, k => fields.lookup k
  | _, _ => none

/-- Top-level key list of a JSON object (in insertion order). -/
def Json.keys : Json → List String
  | .obj fields => fields.keyList
  | _ => []

/-- Whether a JSON value is an object. -/
def Json.isObj : Json → Bool
  | .obj _ => true
  | _ => false

/-! ### A model of JSON.parse -/

/-- JSON whitespace (the characters relevant to the modelled inputs). -/
def isWs (c : Char) : Bool :=
  c = ' ' || c = '\t' || c = '\n' || c = '\r'

/-- Drop leading JSON whitespace. -/
def skipWs : List Char → List Char
  | [] => []
  | c :: cs => if isWs c then skipWs cs else c :: cs

/-- Strip whitespace from both ends of a character list. -/
def trimChars (cs : List Char) : List Char :=
  (skipWs (skipWs cs).reverse).reverse

/-- Model of `s.trim()` (and of the whitespace absorbed around a regex
capture), kept structural so that proofs can evaluate it. -/
def jsTrim (s : String) : String := String.mk (trimChars s.data)

/-- Unescaped value of a JSON string escape character (the escapes the
modelled inputs use; \u escapes are outside the modelled fragment). -/
def escChar (e : Char) : Option Char :=
  if e = 'n' then some '\n'
  else if e = 't' then some '\t'
  else if e = 'r' then some '\r'
  else if e = '"' ∨ e = '\\' ∨ e = '/' then some e
  else none

/-- Parse the remainder of a JSON string literal (the opening quote is
already consumed); supports the escapes used by the modelled inputs. -/
def parseStrAux : List Char → Option (List Char × List Char)
  | [] => none
  | '"' :: rest => some ([], rest)
  | '\\' :: e :: rest =>
    match escChar e, parseStrAux rest with
    | some c, some (cs, r) => some (c :: cs, r)
    | _, _ => none
  | c :: rest =>
    match parseStrAux rest with
    | some (cs, r) => some (c :: cs, r)
    | none => none

/-- Split off the leading run of decimal digits. -/
def digitsAux : List Char → List Char × List Char
  | [] => ([], [])
  | c :: cs =>
    if c.isDigit then
      match digitsAux cs with
      | (ds, r) => (c :: ds, r)
    else ([], c :: cs)

/-- Numeric value of a digit list (decimal accumulation; 48 is the code
point of the zero digit). -/
def natOfDigitsAux (acc : Nat) : List Char → Nat
  | [] => acc
  | c :: cs => natOfDigitsAux (acc * 10 + (c.toNat - 48)) cs

/-- Numeric value of a digit list. -/
def natOfDigits (ds : List Char) : Nat := natOfDigitsAux 0 ds

/-- Opening-brace character (written via its code point). -/
def lbrace : Char := Char.ofNat 123

/-- Closing-brace character (written via its code point). -/
def rbrace : Char := Char.ofNat 125

mutual

/-- Parse one JSON value (fuel-indexed recursive descent). -/
def parseVal : Nat → List Char → Option (Json × List Char)
  | 0, _ => none
  | Nat.succ fuel, input0 =>
    match skipWs input0 with
    | [] => none
    | c :: rest =>
      if c = '"' then
        (parseStrAux rest).map fun p => (Json.str (String.mk p.1), p.2)
      else if c = lbrace then
        (parseMembers fuel true rest).map fun p => (Json.objL p.1, p.2)
      else if c = '[' then
        (parseItems fuel true rest).map fun p => (Json.arrL p.1, p.2)
      else if c = '-' then
        match digitsAux rest with
        | ([], _) => none
        | (ds, r) => some (Json.num (-(Int.ofNat (natOfDigits ds))), r)
      else if c.isDigit then
        match digitsAux (c :: rest) with
        | (ds, r) => some (Json.num (Int.ofNat (natOfDigits ds)), r)
      else if ("null".data).isPrefixOf (c :: rest) then
        some (Json.null, (c :: rest).drop 4)
      else if ("true".data).isPrefixOf (c :: rest) then
        some (Json.bool true, (c :: rest).drop 4)
      else if ("false".data).isPrefixOf (c :: rest) then
        some (Json.bool false, (c :: rest).drop 5)
      else none

/-- Parse the members of a JSON object after its opening brace
(`allowEmpty` is false right after a comma, rejecting trailing commas). -/
def parseMembers : Nat → Bool → List Char → Option (List (String × Json) × List Char)
  | 0, _, _ => none
  | Nat.succ fuel, allowEmpty, input0 =>
    match skipWs input0 with
    | [] => none
    | c :: rest =>
      if c = rbrace then
        if allowEmpty then some ([], rest) else none
      else if c = '"' then
        (parseStrAux rest).bind fun kp =>
          match skipWs kp.2 with
          | ':' :: r2 =>
            (parseVal fuel r2).bind fun vp =>
              match skipWs vp.2 with
              | ',' :: r4 =>
                (parseMembers fuel false r4).map fun mp =>
                  ((String.mk kp.1, vp.1) :: mp.1, mp.2)
              | d :: r4 =>
                if d = rbrace then some ([(String.mk kp.1, vp.1)], r4) else none
              | [] => none
          | _ => none
      else none

/-- Parse the items of a JSON array after its opening bracket. -/
def parseItems : Nat → Bool → List Char → Option (List Json × List Char)
  | 0, _, _ => none
  | Nat.succ fuel, allowEmpty, input0 =>
    match skipWs input0 with
    | ']' :: rest => if allowEmpty then some ([], rest) else none
    | other =>
      (parseVal fuel other).bind fun vp =>
        match skipWs vp.2 with
        | ',' :: r2 =>
          (parseItems fuel false r2).map fun ip => (vp.1 :: ip.1, ip.2)
        | ']' :: r2 => some ([vp.1], r2)
        | _ => none

end

/-- Model of `JSON.parse`: parse one value and require that only
whitespace remains (JSON.parse rejects trailing content). -/
def jsParse (s : String) : Option Json :=
  match parseVal (s.length + 1) s.data with
  | some (v, rest) => if skipWs rest = [] then some v else none
  | none => none

/-! ### Models of the two extraction regular expressions -/

/-- Index of the first occurrence of `pat` in `l` (String.prototype.match
anchoring: leftmost match). -/
def findSub : List Char → List Char → Option Nat
  | l, pat =>
    if pat.isPrefixOf l then some 0
    else
      match l with
      | [] => none
      | _ :: rest => (findSub rest pat).map (· + 1)

/-- Index of the last occurrence of character `c` in `cs`. -/
def lastIdx : List Char → Char → Option Nat
  | [], _ => none
  | x :: xs, c =>
    match lastIdx xs c with
    | some j => some (j + 1)
    | none => if x = c then some 0 else none

/-- Model of `content.match(greedy brace regex)`: the span from the first
opening brace to the last closing brace, when the latter comes after the
former (the pattern requires an opening brace, any characters, then a
closing brace). -/
def braceMatch (s : String) : Option String :=
  let cs := s.data
  match findSub cs [lbrace] with
  | none => none
  | some i =>
    match lastIdx cs rbrace with
    | none => none
    | some j => if i < j then some (String.mk ((cs.drop i).take (j + 1 - i))) else none

/-- The fence opener of the json code-fence pattern. -/
def fenceOpen : List Char := "```json".data

/-- The fence closer of the json code-fence pattern. -/
def fenceClose : List Char := "```".data

/-- Model of `content.match(json code-fence regex)`: from the first
occurrence of the opener, the interior runs (lazily) to the first
subsequent triple backtick, with surrounding whitespace absorbed by the
pattern.  Returns `(capture group 1, whole match)`. -/
def fenceMatch (s : String) : Option (String × String) :=
  let cs := s.data
  match findSub cs fenceOpen with
  | none => none
  | some i =>
    let afterOpen := cs.drop (i + 7)
    match findSub afterOpen fenceClose with
    | none => none
    | some q =>
      some (String.mk (trimChars (afterOpen.take q)),
            String.mk ((cs.drop i).take (7 + q + 3)))

/-! ### The two extraction strategies appearing in the handlers -/

/-- Extraction as written in the ai/search OpenRouter (Claude and GPT)
branches: a direct JSON.parse of the content, and on failure a parse of
the greedy brace-regex span (a failure of that second parse propagates
to the provider-level catch, leaving the result unset). -/
def extractSearchOR (content : String) : Option Json :=
  match jsParse content with
  | some v => some v
  | none =>
    match braceMatch content with
    | some m => jsParse m
    | none => none

/-- Extraction as written in the ai/recommendations, ai/analysis and
ai/modifications chains and in the ai/search Gemini and Groq branches:
`match(fence) || match(brace)`, then
`JSON.parse(m ? m[1] || m[0] : content)` — so the fence capture is
parsed when non-empty (the whole fence match when the capture is empty),
otherwise the brace span, and the raw content is parsed directly only
when neither regex matches. -/
def extractFenced (content : String) : Option Json :=
  match fenceMatch content with
  | some (g1, g0) => jsParse (if g1 = "" then g0 else g1)
  | none =>
    match braceMatch content with
    | some m => jsParse m
    | none => jsParse content

/-- Modelled from the spec: the Response Extractor strategy order as the
specification states it — (1) direct parse of the full text, (2) on
failure the json code-fence pattern with a parse of its interior, (3) on
failure the greedy brace span.  Used only to compare the specified order
with the extraction the code performs. -/
def extractSpecOrdered (content : String) : Option Json :=
  match jsParse content with
  | some v => some v
  | none =>
    match fenceMatch content with
    | some (g1, _) => jsParse g1
    | none =>
      match braceMatch content with
      | some m => jsParse m
      | none => none

/-! ### The provider chain executor -/

/-- Outcome of one outbound provider HTTP call: a thrown network error,
or a response with its `ok` flag and the generated text content already
projected out of the vendor JSON (with the code's `|| "\x7b\x7d"`
default applied). -/
inductive Outcome where
  | netError
  | response (ok : Bool) (content : String)

/-- One position of a provider chain: whether its credential is
configured, and the extraction applied to its response text. -/
structure Slot where
  configured : Bool
  extraction : String → Option Json

/-- The structured value one attempt contributes: nothing on a thrown
call, a non-ok response, or a failed extraction. -/
def attemptResult (ext : String → Option Json) : Outcome → Option Json
  | .netError => none
  | .response ok content => if ok then ext content else none

/-- The assignment a provider block performs on the result variable:
the extracted value on success, the previous value otherwise. -/
def jsAssign (acc res : Option Json) : Option Json :=
  match res with
  | some v => some v
  | none => acc

/-- The sequential fallback chain, transcribed from the handlers: each
provider block runs under the guard `key && !result` (JavaScript
falsiness), assigns the extracted value on success and leaves the result
variable untouched otherwise.  `i` is the absolute index of the head
slot; the second component lists the indices whose HTTP call was issued. -/
def runChainFrom : List Slot → (Nat → Outcome) → Nat → Option Json → Option Json × List Nat
  | [], _, _, acc => (acc, [])
  | slot :: rest, oracle, i, acc =>
    if slot.configured && !(truthy acc) then
      let tail := runChainFrom rest oracle (i + 1)
        (jsAssign acc (attemptResult slot.extraction (oracle i)))
      (tail.1, i :: tail.2)
    else runChainFrom rest oracle (i + 1) acc

/-- Run a provider chain from the initial null result. -/
def runChain (slots : List Slot) (oracle : Nat → Outcome) : Option Json × List Nat :=
  runChainFrom slots oracle 0 none

/-- Boolean form of total exhaustion: every configured slot's attempt
contributes nothing (thrown call, non-ok response or failed
extraction). -/
def chainExhaustedB (slots : List Slot) (oracle : Nat → Outcome) : Bool :=
  (List.range slots.length).all fun i =>
    match slots[i]? with
    | some s => !s.configured || (attemptResult s.extraction (oracle i)).isNone
    | none => true

/-! ### Endpoint plumbing -/

/-- The provider credentials read from the environment at the top of each
AI endpoint (a flag is true when the variable is set and non-empty). -/
structure Keys where
  openRouter : Bool
  gemini : Bool
  groq : Bool
  huggingFace : Bool

/-- ai/search chain: OpenRouter Claude, OpenRouter GPT (direct parse
then brace regex), then Gemini and Groq (fence/brace/raw extraction). -/
def searchSlots (k : Keys) : List Slot :=
  [⟨k.openRouter, extractSearchOR⟩, ⟨k.openRouter, extractSearchOR⟩,
   ⟨k.gemini, extractFenced⟩, ⟨k.groq, extractFenced⟩]

/-- ai/recommendations chain: OpenRouter Claude, OpenRouter GPT, Gemini,
Groq, all with the fence/brace/raw extraction. -/
def recSlots (k : Keys) : List Slot :=
  [⟨k.openRouter, extractFenced⟩, ⟨k.openRouter, extractFenced⟩,
   ⟨k.gemini, extractFenced⟩, ⟨k.groq, extractFenced⟩]

/-- ai/analysis chain: OpenRouter Claude, OpenRouter GPT, Gemini.  The
Hugging Face credential is accepted by the key check but the chain
issues no Hugging Face call (the code goes straight to the fallback). -/
def analysisSlots (k : Keys) : List Slot :=
  [⟨k.openRouter, extractFenced⟩, ⟨k.openRouter, extractFenced⟩,
   ⟨k.gemini, extractFenced⟩]

/-- ai/modifications chain: identical shape to the analysis chain. -/
def modSlots (k : Keys) : List Slot := analysisSlots k

/-- An HTTP response of the route handler. -/
structure Response where
  status : Nat
  body : Json
deriving DecidableEq

/-- Modelled from the spec: the `jsonResponse` helper lives in
`lib/api-utils-nextjs`, which is not part of the provided sources; per
the specification a success carries the JSON body with status 200 and
error bodies carry their explicit status. -/
def jsonResponse (body : Json) (status : Nat) : Response := ⟨status, body⟩

/-- One run of a handler: the response, the indices of the provider
calls issued, and whether the recipe fetch was attempted (always false
for the two routes that fetch no recipe). -/
structure HandlerRun where
  response : Response
  providerCalls : List Nat
  recipeFetchAttempted : Bool
deriving DecidableEq

/-- `x || fallback` on a possibly-null JSON value (JavaScript
falsiness). -/
def orFallback (res : Option Json) (fb : Json) : Json :=
  match res with
  | some v => if v.falsy then fb else v
  | none => fb

/-- `x || dflt` on a possibly-missing integer field (0 is falsy). -/
def jsOrInt (n : Option Int) (dflt : Int) : Int :=
  match n with
  | some v => if v = 0 then dflt else v
  | none => dflt

/-- `x || dflt` on a possibly-missing string field (the empty string is
falsy). -/
def jsOrStr (s : Option String) (dflt : String) : String :=
  match s with
  | some v => if v = "" then dflt else v
  | none => dflt

/-- `s?.trim()` truthiness of an optional string. -/
def truthyTrim (s : Option String) : Bool :=
  match s with
  | some v => jsTrim v ≠ ""
  | none => false

/-- Model of `parseInt(s, 10)`: skip leading whitespace, optional sign,
longest digit prefix; `none` is NaN. -/
def parseIntJs (s : String) : Option Int :=
  match skipWs s.data with
  | '-' :: rest =>
    match digitsAux rest with
    | ([], _) => none
    | (ds, _) => some (-(Int.ofNat (natOfDigits ds)))
  | '+' :: rest =>
    match digitsAux rest with
    | ([], _) => none
    | (ds, _) => some (Int.ofNat (natOfDigits ds))
  | other =>
    match digitsAux other with
    | ([], _) => none
    | (ds, _) => some (Int.ofNat (natOfDigits ds))

/-- An `{ error: msg }` body. -/
def errorBody (msg : String) : Json := Json.objL [("error", Json.str msg)]

/-- An `{ error: msg, message: detail }` body. -/
def errorBody2 (msg detail : String) : Json :=
  Json.objL [("error", Json.str msg), ("message", Json.str detail)]

/-- The no-keys configuration error of ai/search and
ai/recommendations. -/
def searchNoKeysMsg : String :=
  "No AI API keys configured (OpenRouter, Gemini, or Groq required)"

/-- The no-keys configuration error of ai/analysis and
ai/modifications. -/
def analysisNoKeysMsg : String :=
  "No AI API keys configured (OpenRouter, Gemini, or Hugging Face required)"

/-! ### Recipe data and the fallback synthesizers -/

/-- The fields of a fetched Spoonacular recipe that the modelled control
flow reads (the remaining fields only feed the prompt text, which the
model does not need).  `none` models an absent field. -/
structure Recipe where
  glutenFree : Bool
  dairyFree : Bool
  veryHealthy : Bool
  readyInMinutes : Option Int
  healthScore : Option Int
  instructions : Option String

/-- One allergen entry pushed by the analysis fallback:
`\x7b allergen: name, severity: "medium" \x7d` (no sources key). -/
def allergenEntry (name : String) : Json :=
  Json.objL [("allergen", Json.str name), ("severity", Json.str "medium")]

/-- The cooking-difficulty level of the analysis fallback:
`readyInMinutes && readyInMinutes > 60 ? "advanced" :
readyInMinutes && readyInMinutes > 30 ? "intermediate" : "beginner"`
(a missing or zero ready time is falsy and yields "beginner"). -/
def difficultyLevel (readyInMinutes : Option Int) : String :=
  match readyInMinutes with
  | none => "beginner"
  | some n =>
    if n ≠ 0 ∧ n > 60 then "advanced"
    else if n ≠ 0 ∧ n > 30 then "intermediate"
    else "beginner"

/-- The deterministic analysis fallback object, transcribed from the
handler: health score from `recipeInfo.healthScore || 50`, strengths
from the veryHealthy flag, allergen entries pushed for the two dietary
booleans that are false, and difficulty from the ready time. -/
def analysisFallback (r : Recipe) : Json :=
  Json.objL
    [("healthScore", Json.objL
        [("score", Json.num (jsOrInt r.healthScore 50)),
         ("explanation", Json.str "Health score based on recipe nutritional data")]),
     ("nutritionAnalysis", Json.objL
        [("summary", Json.str "Nutritional analysis based on available recipe data"),
         ("strengths", Json.arrL
            (if r.veryHealthy then [Json.str "Recipe is marked as very healthy"] else [])),
         ("concerns", Json.arrL [])]),
     ("allergens", Json.arrL
        ((if !r.glutenFree then [allergenEntry "gluten"] else []) ++
         (if !r.dairyFree then [allergenEntry "dairy"] else []))),
     ("cookingDifficulty", Json.objL
        [("level", Json.str (difficultyLevel r.readyInMinutes)),
         ("explanation", Json.str "Difficulty estimated based on cooking time"),
         ("tips", Json.arrL [])])]

/-- The six top-level keys of the JSON shape the analysis prompt asks
the providers for. -/
def analysisSchemaKeys : List String :=
  ["healthScore", "nutritionAnalysis", "ingredientSubstitutions",
   "allergens", "cookingDifficulty", "timeValidation"]

/-- The deterministic modifications fallback object, transcribed from
the handler (the type parameter has been validated to be "dietary" or
"simplify" before this point). -/
def modificationsFallback (modificationType : String) (r : Recipe) : Json :=
  if modificationType = "dietary" then
    Json.objL
      [("modifiedIngredients", Json.arrL []),
       ("modifiedInstructions", Json.str (jsOrStr r.instructions "")),
       ("explanation", Json.str
          "Dietary conversion not available. Please check recipe ingredients manually.")]
  else
    Json.objL
      [("simplifiedIngredients", Json.arrL []),
       ("simplifiedInstructions", Json.str (jsOrStr r.instructions "")),
       ("tips", Json.arrL [Json.str "Follow the original recipe instructions carefully."])]

/-! ### The four AI endpoint handlers -/

/-- Outcome of `getRecipeInformation`: a thrown error (its message), or
a completed lookup that found the recipe or not. -/
inductive FetchOutcome where
  | fetchThrow (msg : String)
  | fetchOk (recipe : Option Recipe)

/-- Result fields of a completed `searchRecipes` call that the handlers
read (`results.results` is an array or absent). -/
structure SearchResults where
  results : Option (List Json)
  totalResults : Option Int
  offset : Option Int
  number : Option Int

/-- Outcome of the `searchRecipes` call (thrown errors reach the
handler's outer catch). -/
inductive SearchApiOutcome where
  | apiThrow (msg : String)
  | apiOk (res : SearchResults)

/-- The ai/analysis handler: recipeId validation, the three-provider key
check, the recipe fetch (404 when not found, outer catch on a throw),
the provider chain, and the deterministic fallback guarded by
`!analysisData`. -/
def analysisHandler (keys : Keys) (recipeIdValid : Bool) (fetch : FetchOutcome)
    (oracle : Nat → Outcome) : HandlerRun :=
  if !recipeIdValid then
    ⟨jsonResponse (errorBody "Valid recipeId parameter is required") 400, [], false⟩
  else if !(keys.openRouter || keys.gemini || keys.huggingFace) then
    ⟨jsonResponse (errorBody analysisNoKeysMsg) 500, [], false⟩
  else
    match fetch with
    | .fetchThrow msg =>
      ⟨jsonResponse (errorBody2 "AI analysis failed" msg) 500, [], true⟩
    | .fetchOk none =>
      ⟨jsonResponse (errorBody "Recipe not found") 404, [], true⟩
    | .fetchOk (some r) =>
      let chain := runChain (analysisSlots keys) oracle
      ⟨jsonResponse (orFallback chain.1 (analysisFallback r)) 200, chain.2, true⟩

/-- The ai/modifications handler: recipeId and type validation, the
key check, the recipe fetch, the provider chain and the deterministic
fallback. -/
def modificationsHandler (keys : Keys) (recipeIdValid : Bool)
    (modificationType : Option String) (fetch : FetchOutcome)
    (oracle : Nat → Outcome) : HandlerRun :=
  if !recipeIdValid then
    ⟨jsonResponse (errorBody "Valid recipeId parameter is required") 400, [], false⟩
  else
    match modificationType with
    | none =>
      ⟨jsonResponse (errorBody "Valid type parameter required (dietary or simplify)") 400, [], false⟩
    | some mt =>
      if !(mt = "dietary" || mt = "simplify") then
        ⟨jsonResponse (errorBody "Valid type parameter required (dietary or simplify)") 400, [], false⟩
      else if !(keys.openRouter || keys.gemini || keys.huggingFace) then
        ⟨jsonResponse (errorBody analysisNoKeysMsg) 500, [], false⟩
      else
        match fetch with
        | .fetchThrow msg =>
          ⟨jsonResponse (errorBody2 "AI modification failed" msg) 500, [], true⟩
        | .fetchOk none =>
          ⟨jsonResponse (errorBody "Recipe not found") 404, [], true⟩
        | .fetchOk (some r) =>
          let chain := runChain (modSlots keys) oracle
          ⟨jsonResponse (orFallback chain.1 (modificationsFallback mt r)) 200, chain.2, true⟩

/-- The ai/search handler: query validation (`!query ||
query.trim().length < 3`), the key check, the provider chain, the simple
fallback `\x7b searchTerm: query.trim() \x7d`, the recipe search, and
the success body with its literal `aiOptimized: true` field. -/
def searchHandler (keys : Keys) (query : Option String) (oracle : Nat → Outcome)
    (api : SearchApiOutcome) : HandlerRun :=
  match query with
  | none =>
    ⟨jsonResponse (errorBody "Query must be at least 3 characters") 400, [], false⟩
  | some q =>
    if q = "" ∨ (jsTrim q).length < 3 then
      ⟨jsonResponse (errorBody "Query must be at least 3 characters") 400, [], false⟩
    else if !(keys.openRouter || keys.gemini || keys.groq) then
      ⟨jsonResponse (errorBody searchNoKeysMsg) 500, [], false⟩
    else
      let chain := runChain (searchSlots keys) oracle
      let params := orFallback chain.1 (Json.objL [("searchTerm", Json.str (jsTrim q))])
      match api with
      | .apiThrow msg =>
        ⟨jsonResponse (errorBody2 "AI search failed" msg) 500, chain.2, false⟩
      | .apiOk res =>
        ⟨jsonResponse (Json.objL
            [("results", Json.arrL (res.results.getD [])),
             ("totalResults", Json.num (jsOrInt res.totalResults 0)),
             ("offset", Json.num (jsOrInt res.offset 0)),
             ("number", Json.num (jsOrInt res.number 0)),
             ("aiOptimized", Json.bool true),
             ("originalQuery", Json.str (jsTrim q)),
             ("searchParams", params)]) 200, chain.2, false⟩

/-- The request parameters of ai/recommendations after the GET/POST
merge (`query` defaults to the empty string; the rest are nullable). -/
structure RecInput where
  query : String
  ingredients : Option String
  diet : Option String
  cuisine : Option String
  maxTime : Option String
  excludeIngredients : Option String

/-- The simple fallback parameter object of ai/recommendations,
transcribed from the handler: a literal with `searchTerm` (query, else
ingredients, else "recipes") and `number: 10`, then conditional
assignments for diet, cuisine, maxReadyTime (via parseInt; NaN when the
string has no digits), includeIngredients and excludeIngredients, in
that insertion order. -/
def recFallback (inp : RecInput) : Json :=
  Json.objL
    ([("searchTerm", Json.str
        (if jsTrim inp.query ≠ "" then jsTrim inp.query
         else match inp.ingredients with
              | some ing => if jsTrim ing ≠ "" then jsTrim ing else "recipes"
              | none => "recipes")),
      ("number", Json.num 10)] ++
     (match inp.diet with
      | some d => if d ≠ "" then [("diet", Json.str d)] else []
      | none => []) ++
     (match inp.cuisine with
      | some c => if c ≠ "" then [("cuisine", Json.str c)] else []
      | none => []) ++
     (match inp.maxTime with
      | some mt =>
        if mt ≠ "" then
          [("maxReadyTime",
            match parseIntJs mt with
            | some n => Json.num n
            | none => Json.nan)]
        else []
      | none => []) ++
     (match inp.ingredients with
      | some ing => if ing ≠ "" then [("includeIngredients", Json.str ing)] else []
      | none => []) ++
     (match inp.excludeIngredients with
      | some e => if e ≠ "" then [("excludeIngredients", Json.str e)] else []
      | none => []))

/-- The recommendation-context text assembled for the providers (also
echoed, trimmed, in the success body). -/
def recContext (inp : RecInput) : String :=
  (if jsTrim inp.query ≠ "" then "User request: \"" ++ jsTrim inp.query ++ "\"\n" else "") ++
  (match inp.ingredients with
   | some v => if jsTrim v ≠ "" then "Available ingredients: " ++ jsTrim v ++ "\n" else ""
   | none => "") ++
  (match inp.diet with
   | some v => if jsTrim v ≠ "" then "Dietary preference: " ++ jsTrim v ++ "\n" else ""
   | none => "") ++
  (match inp.cuisine with
   | some v => if jsTrim v ≠ "" then "Cuisine preference: " ++ jsTrim v ++ "\n" else ""
   | none => "") ++
  (match inp.maxTime with
   | some v => if jsTrim v ≠ "" then "Maximum cooking time: " ++ jsTrim v ++ " minutes\n" else ""
   | none => "") ++
  (match inp.excludeIngredients with
   | some v => if jsTrim v ≠ "" then "Exclude ingredients: " ++ jsTrim v ++ "\n" else ""
   | none => "")

/-- The search-parameter object the ai/recommendations handler ends up
with: the chain's extracted value when truthy, otherwise the simple
fallback (`if (!aiResponseData) aiResponseData = ...`). -/
def recParams (keys : Keys) (inp : RecInput) (oracle : Nat → Outcome) : Json :=
  orFallback (runChain (recSlots keys) oracle).1 (recFallback inp)

/-- `(typeof n === "number" ? n : null) || 10` on the number field of
the parameter object (NaN is a number but falsy, so it also yields
10). -/
def recNumber (params : Json) : Int :=
  match params.get? "number" with
  | some (Json.num n) => if n = 0 then 10 else n
  | _ => 10

/-- `list.slice(0, n)` with JavaScript negative-end semantics. -/
def jsSliceTo (l : List Json) (n : Int) : List Json :=
  if n ≥ 0 then l.take n.toNat else l.take (l.length - (-n).toNat)

/-- The reason string of the ai/recommendations success body. -/
def recReason (inp : RecInput) : String :=
  if jsTrim inp.query ≠ "" then
    "Recommended based on: \"" ++ jsTrim inp.query ++ "\""
  else
    match inp.ingredients with
    | some v =>
      if jsTrim v ≠ "" then "Recommended based on available ingredients: " ++ jsTrim v
      else "Personalized recommendations for you"
    | none => "Personalized recommendations for you"

/-- The ai/recommendations handler: query-or-ingredients validation, the
key check, the provider chain with the simple fallback, the recipe
search, and the success body `\x7b recipes, reason, context \x7d`. -/
def recommendationsHandler (keys : Keys) (inp : RecInput) (oracle : Nat → Outcome)
    (api : SearchApiOutcome) : HandlerRun :=
  if jsTrim inp.query = "" ∧ truthyTrim inp.ingredients = false then
    ⟨jsonResponse (errorBody "Either query or ingredients parameter is required") 400, [], false⟩
  else if !(keys.openRouter || keys.gemini || keys.groq) then
    ⟨jsonResponse (errorBody searchNoKeysMsg) 500, [], false⟩
  else
    let chain := runChain (recSlots keys) oracle
    let params := orFallback chain.1 (recFallback inp)
    match api with
    | .apiThrow msg =>
      ⟨jsonResponse (errorBody2 "AI recommendations failed" msg) 500, chain.2, false⟩
    | .apiOk res =>
      ⟨jsonResponse (Json.objL
          [("recipes", Json.arrL (jsSliceTo (res.results.getD []) (recNumber params))),
           ("reason", Json.str (recReason inp)),
           ("context", Json.str (jsTrim (recContext inp)))]) 200, chain.2, false⟩

/-! ### Concrete instances used by witnesses and counterexamples -/

/-- No credential configured at all. -/
def noKeys : Keys := ⟨false, false, false, false⟩

/-- Only the OpenRouter credential. -/
def orOnly : Keys := ⟨true, false, false, false⟩

/-- Only the Groq credential. -/
def groqOnly : Keys := ⟨false, false, true, false⟩

/-- Only the Gemini credential. -/
def geminiOnly : Keys := ⟨false, true, false, false⟩

/-- OpenRouter and Groq credentials. -/
def orGroq : Keys := ⟨true, false, true, false⟩

/-- Only the Hugging Face credential (passes the analysis key check but
the chain issues no call for it). -/
def hfOnly : Keys := ⟨false, false, false, true⟩

/-- The recipe of the analysis scenario: not gluten-free, not
dairy-free, 75 minutes ready time. -/
def recipeEx : Recipe := ⟨false, false, false, some 75, some 35, some "Boil the pasta."⟩

/-- A recipe whose own health score is zero. -/
def recipeZeroScore : Recipe := ⟨true, true, true, some 20, some 0, none⟩

/-- An oracle whose every call throws a network error. -/
def failOracle : Nat → Outcome := fun _ => Outcome.netError

/-- An oracle whose every call returns a non-ok HTTP response. -/
def badStatusOracle : Nat → Outcome := fun _ => Outcome.response false "rate limited"

/-- An oracle whose first provider answers with a parseable object. -/
def firstOkOracle : Nat → Outcome :=
  fun _ => Outcome.response true "\x7b\"searchTerm\":\"pasta\"\x7d"

/-- An oracle whose Claude slot yields the bare JSON number 5 (truthy,
not an object) and whose Groq slot yields an object. -/
def scalarThenObjOracle : Nat → Outcome := fun n =>
  match n with
  | 0 => Outcome.response true "5"
  | 3 => Outcome.response true "\x7b\"a\":1\x7d"
  | _ => Outcome.netError

/-- An oracle whose Gemini analysis slot answers with a foreign object. -/
def fooOracle : Nat → Outcome := fun n =>
  match n with
  | 2 => Outcome.response true "\x7b\"foo\":1\x7d"
  | _ => Outcome.netError

/-- The recommendation scenario input `\x7b query: "quick vegan dinner" \x7d`. -/
def qvdInput : RecInput := ⟨"quick vegan dinner", none, none, none, none, none⟩

/-- A completed recipe search with no fields present. -/
def emptyResults : SearchResults := ⟨none, none, none, none⟩

/-- Provider text that is one valid JSON object whose string content
contains a json code fence with unparseable interior. -/
def cexText : String := "\x7b\"a\":\"x```jsonY```z\"\x7d"

/-- The parse of `cexText` as a whole. -/
def cexParsed : Json := Json.objL [("a", Json.str "x```jsonY```z")]

end RecipeAI

namespace RecipeAI

/-! ## Chain executor lemmas -/

/-- Once the result variable is truthy, every later provider guard is
false: the chain issues no further call and returns the value as is. -/
theorem runChainFrom_stable (slots : List Slot) (oracle : Nat → Outcome) :
    ∀ (i : Nat) (acc : Option Json), truthy acc = true →
      runChainFrom slots oracle i acc = (acc, []) := by
  induction slots with
  | nil => intro i acc _; rfl
  | cons slot rest ih =>
    intro i acc h
    unfold runChainFrom
    rw [h]
    simp only [Bool.not_true, Bool.and_false, Bool.false_eq_true, if_false]
    exact ih (i + 1) acc h

/-- When every configured slot's attempt contributes nothing, the chain
leaves the result variable unchanged. -/
theorem runChainFrom_exhausted (slots : List Slot) (oracle : Nat → Outcome) :
    ∀ (i : Nat) (acc : Option Json),
      (∀ d s, slots[d]? = some s → s.configured = true →
        attemptResult s.extraction (oracle (i + d)) = none) →
      (runChainFrom slots oracle i acc).1 = acc := by
  induction slots with
  | nil => intro i acc _; rfl
  | cons slot rest ih =>
    intro i acc h
    have hshift : ∀ d s, rest[d]? = some s → s.configured = true →
        attemptResult s.extraction (oracle (i + 1 + d)) = none := by
      intro d s hd hc
      have := h (d + 1) s (by simpa using hd) hc
      rwa [show i + (d + 1) = i + 1 + d by omega] at this
    unfold runChainFrom
    by_cases hg : (slot.configured && !(truthy acc)) = true
    · rw [if_pos hg]
      have hconf : slot.configured = true := by
        have := hg; simp only [Bool.and_eq_true] at this; exact this.1
      have hres : attemptResult slot.extraction (oracle (i + 0)) = none :=
        h 0 slot (by simp) hconf
      rw [Nat.add_zero] at hres
      simp only [hres, jsAssign]
      exact ih (i + 1) acc hshift
    · rw [if_neg hg]
      exact ih (i + 1) acc hshift

/-- The first slot whose attempt yields a truthy value determines the
chain's result, and no later slot's call is issued. -/
theorem runChainFrom_first_truthy (slots : List Slot) (oracle : Nat → Outcome) :
    ∀ (k i : Nat) (acc : Option Json) (slotK : Slot) (v : Json),
      truthy acc = false →
      slots[k]? = some slotK →
      slotK.configured = true →
      attemptResult slotK.extraction (oracle (i + k)) = some v →
      v.falsy = false →
      (∀ d s, d < k → slots[d]? = some s →
        (s.configured && truthy (attemptResult s.extraction (oracle (i + d)))) = false) →
      (runChainFrom slots oracle i acc).1 = some v ∧
        ∀ j ∈ (runChainFrom slots oracle i acc).2, j ≤ i + k := by
  induction slots with
  | nil => intro k i acc slotK v _ hk; simp at hk
  | cons slot rest ih =>
    intro k i acc slotK v hacc hk hconf hres htr hbefore
    match k with
    | 0 =>
      have hslot : slot = slotK := by simpa using hk
      subst hslot
      have hguard : (slot.configured && !(truthy acc)) = true := by
        rw [hconf, hacc]; rfl
      rw [Nat.add_zero] at hres
      unfold runChainFrom
      rw [if_pos hguard]
      simp only [hres, jsAssign]
      have hstable : runChainFrom rest oracle (i + 1) (some v) = (some v, []) :=
        runChainFrom_stable rest oracle (i + 1) (some v)
          (by simp [truthy, htr])
      rw [hstable]
      exact ⟨rfl, by intro j hj; simp at hj; omega⟩
    | Nat.succ k' =>
      have hk' : rest[k']? = some slotK := by simpa using hk
      have hres' : attemptResult slotK.extraction (oracle (i + 1 + k')) = some v := by
        rwa [show i + 1 + k' = i + (k' + 1) by omega]
      have hbefore' : ∀ d s, d < k' → rest[d]? = some s →
          (s.configured && truthy (attemptResult s.extraction (oracle (i + 1 + d)))) = false := by
        intro d s hd hds
        have := hbefore (d + 1) s (by omega) (by simpa using hds)
        rwa [show i + (d + 1) = i + 1 + d by omega] at this
      have hhead := hbefore 0 slot (by omega) (by simp)
      rw [Nat.add_zero] at hhead
      unfold runChainFrom
      by_cases hg : (slot.configured && !(truthy acc)) = true
      · rw [if_pos hg]
        have hconf0 : slot.configured = true := by
          have := hg; simp only [Bool.and_eq_true] at this; exact this.1
        have hnt : truthy (attemptResult slot.extraction (oracle i)) = false := by
          by_contra hx
          have hx' : truthy (attemptResult slot.extraction (oracle i)) = true :=
            eq_true_of_ne_false hx
          have : (slot.configured && truthy (attemptResult slot.extraction (oracle i))) = true := by
            rw [hconf0, hx']; rfl
          rw [this] at hhead; cases hhead
        have hacc' : truthy (jsAssign acc (attemptResult slot.extraction (oracle i))) = false := by
          cases hao : attemptResult slot.extraction (oracle i) with
          | none => simpa [jsAssign, hao] using hacc
          | some w => rw [hao] at hnt; simpa [jsAssign, hao] using hnt
        obtain ⟨h1, h2⟩ := ih k' (i + 1)
          (jsAssign acc (attemptResult slot.extraction (oracle i)))
          slotK v hacc' hk' hconf hres' htr hbefore'
        refine ⟨h1, ?_⟩
        intro j hj
        simp only [List.mem_cons] at hj
        rcases hj with hj | hj
        · omega
        · have := h2 j hj; omega
      · rw [if_neg hg]
        obtain ⟨h1, h2⟩ := ih k' (i + 1) acc slotK v hacc hk' hconf hres' htr hbefore'
        refine ⟨h1, ?_⟩
        intro j hj
        have := h2 j hj; omega

/-- Unfolds the Boolean exhaustion check into its per-slot meaning. -/
theorem chainExhaustedB_spec (slots : List Slot) (oracle : Nat → Outcome)
    (h : chainExhaustedB slots oracle = true) :
    ∀ d s, slots[d]? = some s → s.configured = true →
      attemptResult s.extraction (oracle d) = none := by
  intro d s hd hc
  have hlen : d < slots.length := by
    by_contra hlt
    rw [List.getElem?_eq_none (by omega)] at hd
    cases hd
  have hall := (List.all_eq_true.mp h) d (List.mem_range.mpr hlen)
  rw [hd] at hall
  simp only [hc, Bool.not_true, Bool.false_or] at hall
  exact Option.eq_none_of_isNone hall

/-- A fully exhausted chain yields the null result. -/
theorem runChain_exhausted (slots : List Slot) (oracle : Nat → Outcome)
    (h : chainExhaustedB slots oracle = true) :
    (runChain slots oracle).1 = none := by
  unfold runChain
  apply runChainFrom_exhausted
  intro d s hd hc
  rw [Nat.zero_add]
  exact chainExhaustedB_spec slots oracle h d s hd hc

end RecipeAI

namespace RecipeAI

/-! ## Handler helper lemmas -/

/-- With the analysis key check passed and the chain exhausted, the
analysis handler answers 200 with the deterministic fallback body. -/
theorem analysisHandler_resp_200 (keys : Keys) (oracle : Nat → Outcome) (r : Recipe)
    (hkeys : (keys.openRouter || keys.gemini || keys.huggingFace) = true)
    (hex : chainExhaustedB (analysisSlots keys) oracle = true) :
    (analysisHandler keys true (FetchOutcome.fetchOk (some r)) oracle).response =
      ⟨200, analysisFallback r⟩ := by
  have hc := runChain_exhausted _ _ hex
  simp only [analysisHandler, hkeys, Bool.not_true, Bool.false_eq_true, if_false,
    hc, orFallback, jsonResponse]

/-- With no analysis credential configured, the analysis handler answers
the 500 configuration error (whatever the fetch or the oracle would do). -/
theorem analysisHandler_resp_nokeys (keys : Keys) (oracle : Nat → Outcome)
    (fetch : FetchOutcome)
    (hkeys : (keys.openRouter || keys.gemini || keys.huggingFace) = false) :
    (analysisHandler keys true fetch oracle).response =
      ⟨500, errorBody analysisNoKeysMsg⟩ := by
  simp only [analysisHandler, hkeys, Bool.not_true, Bool.not_false, Bool.false_eq_true,
    if_false, if_true, jsonResponse]

/-- With a valid modification type, the key check passed and the chain
exhausted, the modifications handler answers 200 with the deterministic
fallback body. -/
theorem modificationsHandler_resp_200 (keys : Keys) (oracle : Nat → Outcome) (r : Recipe)
    (mt : String)
    (hmt : (mt = "dietary" || mt = "simplify") = true)
    (hkeys : (keys.openRouter || keys.gemini || keys.huggingFace) = true)
    (hex : chainExhaustedB (modSlots keys) oracle = true) :
    (modificationsHandler keys true (some mt) (FetchOutcome.fetchOk (some r)) oracle).response =
      ⟨200, modificationsFallback mt r⟩ := by
  have hc := runChain_exhausted _ _ hex
  simp only [modificationsHandler, hmt, hkeys, Bool.not_true, Bool.false_eq_true, if_false,
    hc, orFallback, jsonResponse]

/-- With a valid modification type but no analysis credential, the
modifications handler answers the 500 configuration error. -/
theorem modificationsHandler_resp_nokeys (keys : Keys) (oracle : Nat → Outcome)
    (fetch : FetchOutcome) (mt : String)
    (hmt : (mt = "dietary" || mt = "simplify") = true)
    (hkeys : (keys.openRouter || keys.gemini || keys.huggingFace) = false) :
    (modificationsHandler keys true (some mt) fetch oracle).response =
      ⟨500, errorBody analysisNoKeysMsg⟩ := by
  simp only [modificationsHandler, hmt, hkeys, Bool.not_true, Bool.not_false,
    Bool.false_eq_true, if_false, if_true, jsonResponse]

/-- With an invalid modification type the modifications handler answers
400 before anything else. -/
theorem modificationsHandler_resp_badtype (keys : Keys) (oracle : Nat → Outcome)
    (fetch : FetchOutcome) (mt : String)
    (hmt : (mt = "dietary" || mt = "simplify") = false) :
    (modificationsHandler keys true (some mt) fetch oracle).response =
      ⟨400, errorBody "Valid type parameter required (dietary or simplify)"⟩ := by
  simp only [modificationsHandler, hmt, Bool.not_true, Bool.not_false, Bool.false_eq_true,
    if_false, if_true, jsonResponse]

/-- With a valid query, the key check passed, the chain exhausted and a
completed recipe search, the search handler answers 200 and its body
embeds the simple fallback parameters. -/
theorem searchHandler_resp_200 (keys : Keys) (oracle : Nat → Outcome) (q : String)
    (res : SearchResults)
    (hq : ¬ (q = "" ∨ (jsTrim q).length < 3))
    (hkeys : (keys.openRouter || keys.gemini || keys.groq) = true)
    (hex : chainExhaustedB (searchSlots keys) oracle = true) :
    (searchHandler keys (some q) oracle (SearchApiOutcome.apiOk res)).response =
      ⟨200, Json.objL
        [("results", Json.arrL (res.results.getD [])),
         ("totalResults", Json.num (jsOrInt res.totalResults 0)),
         ("offset", Json.num (jsOrInt res.offset 0)),
         ("number", Json.num (jsOrInt res.number 0)),
         ("aiOptimized", Json.bool true),
         ("originalQuery", Json.str (jsTrim q)),
         ("searchParams", Json.objL [("searchTerm", Json.str (jsTrim q))])]⟩ := by
  have hc := runChain_exhausted _ _ hex
  simp only [searchHandler, if_neg hq, hkeys, Bool.not_true, Bool.false_eq_true, if_false,
    hc, orFallback, jsonResponse]

/-! ## C1 -/

/-- C1 (amended): for every provider chain, if slot `k` is configured
and is the first whose HTTP response is ok and whose extraction yields a
truthy JSON value (the guards test JavaScript falsiness, so null, false,
0 and the empty string count as failure and the chain continues), then
the chain's result is exactly that value and no slot after `k` issues a
call. -/
theorem chain_first_truthy_result (slots : List Slot) (oracle : Nat → Outcome)
    (k : Nat) (slotK : Slot) (v : Json)
    (hk : slots[k]? = some slotK)
    (hconf : slotK.configured = true)
    (hres : attemptResult slotK.extraction (oracle k) = some v)
    (htruthy : v.falsy = false)
    (hbefore : ∀ d s, d < k → slots[d]? = some s →
      (s.configured && truthy (attemptResult s.extraction (oracle d))) = false) :
    (runChain slots oracle).1 = some v ∧
      ∀ j ∈ (runChain slots oracle).2, j ≤ k := by
  unfold runChain
  have h0 : ∀ d s, d < k → slots[d]? = some s →
      (s.configured && truthy (attemptResult s.extraction (oracle (0 + d)))) = false := by
    intro d s hd hds
    rw [Nat.zero_add]
    exact hbefore d s hd hds
  obtain ⟨h1, h2⟩ := runChainFrom_first_truthy slots oracle k 0 none slotK v rfl hk hconf
    (by rwa [Nat.zero_add]) htruthy h0
  refine ⟨h1, ?_⟩
  intro j hj
  have := h2 j hj
  omega

/-- Witness for C1: with only OpenRouter configured and Claude answering
a parseable object, the chain returns that object and only slot 0 is
called. -/
theorem chain_first_truthy_result_witness :
    (runChain (searchSlots orOnly) firstOkOracle).1 =
        some (Json.objL [("searchTerm", Json.str "pasta")]) ∧
      ∀ j ∈ (runChain (searchSlots orOnly) firstOkOracle).2, j ≤ 0 :=
  chain_first_truthy_result (searchSlots orOnly) firstOkOracle 0
    ⟨true, extractSearchOR⟩ (Json.objL [("searchTerm", Json.str "pasta")])
    rfl rfl (by decide) (by decide)
    (fun d s hd _ => absurd hd (by omega))

/-- C1 counterexample: with OpenRouter and Groq configured, Claude
answers ok with the bare JSON number 5 (valid JSON, truthy, not an
object) and Groq would answer ok with an object.  Per the claim, Groq is
the first provider returning a 2xx response with a successfully
extracted JSON object, so the handler's structured data should equal
Groq's object; but the guards test falsiness rather than null-ness, the
chain stops at the number 5, Groq is never called, and the result is not
the object. -/
theorem chain_scalar_blocks_object_counterexample :
    (runChain (searchSlots orGroq) scalarThenObjOracle).1 = some (Json.num 5) ∧
    (runChain (searchSlots orGroq) scalarThenObjOracle).2 = [0] ∧
    (runChain (searchSlots orGroq) scalarThenObjOracle).1 ≠
      some (Json.objL [("a", Json.num 1)]) := by
  exact ⟨by decide, by decide, by decide⟩

end RecipeAI

namespace RecipeAI

/-! ## C2 -/

/-- C2 (amended): for every AI endpoint request in which at least one of
the endpoint's own provider credentials is configured and every
configured provider attempt fails, the handler reaches the Fallback
Synthesizer: the analysis and modifications handlers answer HTTP 200
whose body is the fallback object itself; the search handler, provided
the subsequent recipe search completes, answers 200 embedding the
fallback parameters; the recommendations handler's synthesized
parameter object equals the fallback construction and, provided the
subsequent recipe search completes, it answers 200.  (With no
credential at all the handler instead returns the 500 configuration
error.)  Each endpoint's conjunct carries only that endpoint's own key
check, validation and exhaustion hypotheses, over its own credentials
and its own provider outcomes. -/
theorem ai_exhausted_200_fallback (kA kM kS kR : Keys)
    (oA oM oS oR : Nat → Outcome) (r : Recipe)
    (mt q : String) (inp : RecInput) (res : SearchResults) :
    ((kA.openRouter || kA.gemini || kA.huggingFace) = true →
      chainExhaustedB (analysisSlots kA) oA = true →
      (analysisHandler kA true (FetchOutcome.fetchOk (some r)) oA).response =
        ⟨200, analysisFallback r⟩) ∧
    ((mt = "dietary" || mt = "simplify") = true →
      (kM.openRouter || kM.gemini || kM.huggingFace) = true →
      chainExhaustedB (modSlots kM) oM = true →
      (modificationsHandler kM true (some mt) (FetchOutcome.fetchOk (some r)) oM).response =
        ⟨200, modificationsFallback mt r⟩) ∧
    (¬ (q = "" ∨ (jsTrim q).length < 3) →
      (kS.openRouter || kS.gemini || kS.groq) = true →
      chainExhaustedB (searchSlots kS) oS = true →
      (searchHandler kS (some q) oS (SearchApiOutcome.apiOk res)).response.status = 200 ∧
      ((searchHandler kS (some q) oS (SearchApiOutcome.apiOk res)).response.body).get?
          "searchParams" = some (Json.objL [("searchTerm", Json.str (jsTrim q))])) ∧
    (¬ (jsTrim inp.query = "" ∧ truthyTrim inp.ingredients = false) →
      (kR.openRouter || kR.gemini || kR.groq) = true →
      chainExhaustedB (recSlots kR) oR = true →
      recParams kR inp oR = recFallback inp ∧
      (recommendationsHandler kR inp oR (SearchApiOutcome.apiOk res)).response.status = 200) := by
  refine ⟨?_, ?_, ?_, ?_⟩
  · intro hk hex
    exact analysisHandler_resp_200 kA oA r hk hex
  · intro hmt hk hex
    exact modificationsHandler_resp_200 kM oM r mt hmt hk hex
  · intro hq hk hex
    have hs := searchHandler_resp_200 kS oS q res hq hk hex
    constructor
    · rw [hs]
    · rw [hs]
      rfl
  · intro hval hk hex
    have hc := runChain_exhausted _ _ hex
    constructor
    · unfold recParams
      rw [hc]
      rfl
    · simp only [recommendationsHandler, if_neg hval, hk, Bool.not_true, Bool.false_eq_true,
        if_false, jsonResponse]

/-- Witness for C2, exercising two per-endpoint corners: analysis and
modifications with only the Hugging Face credential (the key check
passes and the chain is vacuously exhausted, since no Hugging Face call
exists), and search and recommendations with only the Groq credential
(a throwing oracle for search, a non-ok-status oracle for
recommendations). -/
theorem ai_exhausted_200_fallback_witness :
    (analysisHandler hfOnly true (FetchOutcome.fetchOk (some recipeEx)) failOracle).response =
      ⟨200, analysisFallback recipeEx⟩ ∧
    (modificationsHandler hfOnly true (some "dietary")
        (FetchOutcome.fetchOk (some recipeEx)) failOracle).response =
      ⟨200, modificationsFallback "dietary" recipeEx⟩ ∧
    ((searchHandler groqOnly (some "vegan pasta") failOracle
        (SearchApiOutcome.apiOk emptyResults)).response.status = 200 ∧
      ((searchHandler groqOnly (some "vegan pasta") failOracle
        (SearchApiOutcome.apiOk emptyResults)).response.body).get? "searchParams" =
        some (Json.objL [("searchTerm", Json.str "vegan pasta")])) ∧
    (recParams groqOnly qvdInput badStatusOracle = recFallback qvdInput ∧
      (recommendationsHandler groqOnly qvdInput badStatusOracle
        (SearchApiOutcome.apiOk emptyResults)).response.status = 200) := by
  obtain ⟨h1, h2, h3, h4⟩ := ai_exhausted_200_fallback hfOnly hfOnly groqOnly groqOnly
    failOracle failOracle failOracle badStatusOracle recipeEx "dietary" "vegan pasta"
    qvdInput emptyResults
  exact ⟨h1 (by decide) (by decide), h2 (by decide) (by decide) (by decide),
    h3 (by decide) (by decide) (by decide), h4 (by decide) (by decide) (by decide)⟩

/-- C2 counterexample: a request in which all providers are unconfigured
is total exhaustion in the claim's wording, yet the analysis handler
answers the 500 configuration error, not a 200 with the fallback. -/
theorem no_keys_not_200_counterexample :
    (analysisHandler noKeys true (FetchOutcome.fetchOk (some recipeEx)) failOracle).response.status
      = 500 ∧
    (analysisHandler noKeys true (FetchOutcome.fetchOk (some recipeEx)) failOracle).response.status
      ≠ 200 ∧
    (analysisHandler noKeys true (FetchOutcome.fetchOk (some recipeEx)) failOracle).response.body
      = errorBody analysisNoKeysMsg := by
  exact ⟨by decide, by decide, by decide⟩

/-! ## C3 -/

/-- C3: with no provider credential configured at all, each of the four
AI endpoint handlers (on an otherwise valid request) answers the 500
configuration error having issued no provider call, and the analysis and
modifications handlers do so before any recipe fetch is attempted (the
whole run is independent of the fetch outcome). -/
theorem no_credentials_500_before_calls (oracle : Nat → Outcome)
    (fetchA fetchM : FetchOutcome) (api : SearchApiOutcome)
    (q mt : String) (inp : RecInput)
    (hq : ¬ (q = "" ∨ (jsTrim q).length < 3))
    (hmt : (mt = "dietary" || mt = "simplify") = true)
    (hrec : ¬ (jsTrim inp.query = "" ∧ truthyTrim inp.ingredients = false)) :
    analysisHandler noKeys true fetchA oracle =
      ⟨⟨500, errorBody analysisNoKeysMsg⟩, [], false⟩ ∧
    modificationsHandler noKeys true (some mt) fetchM oracle =
      ⟨⟨500, errorBody analysisNoKeysMsg⟩, [], false⟩ ∧
    searchHandler noKeys (some q) oracle api =
      ⟨⟨500, errorBody searchNoKeysMsg⟩, [], false⟩ ∧
    recommendationsHandler noKeys inp oracle api =
      ⟨⟨500, errorBody searchNoKeysMsg⟩, [], false⟩ := by
  refine And.intro rfl (And.intro ?_ (And.intro ?_ ?_))
  · simp only [modificationsHandler, hmt, Bool.not_true, Bool.not_false, Bool.false_eq_true,
      if_false, if_true, jsonResponse]
    rfl
  · simp only [searchHandler, if_neg hq, jsonResponse]
    rfl
  · simp only [recommendationsHandler, if_neg hrec, jsonResponse]
    rfl

/-- Witness for C3 at concrete inputs (arbitrary fetch outcomes shown
irrelevant by picking a throwing fetch). -/
theorem no_credentials_500_before_calls_witness :
    analysisHandler noKeys true (FetchOutcome.fetchThrow "boom") failOracle =
      ⟨⟨500, errorBody analysisNoKeysMsg⟩, [], false⟩ ∧
    modificationsHandler noKeys true (some "simplify") (FetchOutcome.fetchThrow "boom") failOracle =
      ⟨⟨500, errorBody analysisNoKeysMsg⟩, [], false⟩ ∧
    searchHandler noKeys (some "vegan pasta") failOracle (SearchApiOutcome.apiThrow "down") =
      ⟨⟨500, errorBody searchNoKeysMsg⟩, [], false⟩ ∧
    recommendationsHandler noKeys qvdInput failOracle (SearchApiOutcome.apiThrow "down") =
      ⟨⟨500, errorBody searchNoKeysMsg⟩, [], false⟩ :=
  no_credentials_500_before_calls failOracle (FetchOutcome.fetchThrow "boom")
    (FetchOutcome.fetchThrow "boom") (SearchApiOutcome.apiThrow "down")
    "vegan pasta" "simplify" qvdInput (by decide) (by decide) (by decide)

/-! ## C4 -/

/-- C4: for every analysis request whose fetched recipe is not
gluten-free, not dairy-free and ready in 75 minutes, with at least one
credential configured and every configured provider failing, the 200
fallback body's allergens array holds exactly the medium-severity gluten
and dairy entries, and its cooking difficulty level is "advanced". -/
theorem analysis_fallback_allergens_difficulty (keys : Keys) (oracle : Nat → Outcome)
    (r : Recipe)
    (hkeys : (keys.openRouter || keys.gemini || keys.huggingFace) = true)
    (hex : chainExhaustedB (analysisSlots keys) oracle = true)
    (hg : r.glutenFree = false) (hd : r.dairyFree = false)
    (hrim : r.readyInMinutes = some 75) :
    (analysisHandler keys true (FetchOutcome.fetchOk (some r)) oracle).response.status = 200 ∧
    ((analysisHandler keys true (FetchOutcome.fetchOk (some r)) oracle).response.body).get?
        "allergens" =
      some (Json.arrL [allergenEntry "gluten", allergenEntry "dairy"]) ∧
    (((analysisHandler keys true (FetchOutcome.fetchOk (some r)) oracle).response.body).get?
        "cookingDifficulty").bind (fun j => j.get? "level") =
      some (Json.str "advanced") := by
  have hresp := analysisHandler_resp_200 keys oracle r hkeys hex
  rw [hresp]
  refine ⟨rfl, ?_, ?_⟩
  · simp only [analysisFallback, hg, hd, Bool.not_false, if_true, List.singleton_append]
    rfl
  · simp only [analysisFallback, hrim, difficultyLevel]
    norm_num
    rfl

/-- Witness for C4 at the concrete scenario recipe. -/
theorem analysis_fallback_allergens_difficulty_witness :
    (analysisHandler orOnly true (FetchOutcome.fetchOk (some recipeEx)) failOracle).response.status
      = 200 ∧
    ((analysisHandler orOnly true (FetchOutcome.fetchOk (some recipeEx)) failOracle).response.body).get?
        "allergens" =
      some (Json.arrL [allergenEntry "gluten", allergenEntry "dairy"]) ∧
    (((analysisHandler orOnly true (FetchOutcome.fetchOk (some recipeEx)) failOracle).response.body).get?
        "cookingDifficulty").bind (fun j => j.get? "level") =
      some (Json.str "advanced") :=
  analysis_fallback_allergens_difficulty orOnly failOracle recipeEx
    (by decide) (by decide) rfl rfl rfl

end RecipeAI

namespace RecipeAI

/-! ## C5 -/

/-- C5 counterexample: with the input `\x7b query: "quick vegan dinner" \x7d`
and all providers unconfigured, the recommendations handler does not
produce the fallback parameter object; it answers the 500 configuration
error before any synthesis. -/
theorem rec_no_keys_counterexample :
    (recommendationsHandler noKeys qvdInput failOracle
        (SearchApiOutcome.apiOk emptyResults)).response.status = 500 ∧
    (recommendationsHandler noKeys qvdInput failOracle
        (SearchApiOutcome.apiOk emptyResults)).response.body = errorBody searchNoKeysMsg ∧
    (recommendationsHandler noKeys qvdInput failOracle
        (SearchApiOutcome.apiOk emptyResults)).response.body ≠
      Json.objL [("searchTerm", Json.str "quick vegan dinner"), ("number", Json.num 10)] := by
  exact ⟨by decide, by decide, by decide⟩

/-- C5 (amended): with the input `\x7b query: "quick vegan dinner" \x7d`, at
least one provider credential configured and every configured provider
attempt failing, the synthesized search-parameter object is exactly
`\x7b searchTerm: "quick vegan dinner", number: 10 \x7d` — in particular it
carries no diet or cuisine key. -/
theorem rec_fallback_literal (keys : Keys) (oracle : Nat → Outcome)
    (_hkeys : (keys.openRouter || keys.gemini || keys.groq) = true)
    (hex : chainExhaustedB (recSlots keys) oracle = true) :
    recParams keys qvdInput oracle =
      Json.objL [("searchTerm", Json.str "quick vegan dinner"), ("number", Json.num 10)] := by
  unfold recParams
  rw [runChain_exhausted _ _ hex]
  rfl

/-- Witness for C5 at concrete keys and a throwing oracle. -/
theorem rec_fallback_literal_witness :
    recParams groqOnly qvdInput failOracle =
      Json.objL [("searchTerm", Json.str "quick vegan dinner"), ("number", Json.num 10)] :=
  rec_fallback_literal groqOnly failOracle (by decide) (by decide)

/-! ## C6 -/

/-- C6 counterexample: `cexText` is one valid JSON object whose string
content contains a json code fence with unparseable interior.  The
spec's strategy order (direct parse first) extracts the object, but the
code's extractor tries the fence regex first, parses its interior "Y",
fails, and the whole extraction fails. -/
theorem extraction_order_counterexample :
    jsParse cexText = some cexParsed ∧
    extractFenced cexText = none ∧
    extractSpecOrdered cexText = some cexParsed ∧
    extractFenced cexText ≠ extractSpecOrdered cexText := by
  exact ⟨by decide, by decide, by decide, by decide⟩

/-- C6 (amended): the extractor used by the recommendations, analysis
and modifications chains (and the search chain's Gemini/Groq branches)
tries the json code-fence regex first (parsing the capture, or the whole
match when the capture is empty), then the greedy brace regex, and
parses the raw text directly only when neither regex matches; the search
chain's OpenRouter branches instead try the direct parse first and then
the brace regex, with no fence strategy.  First success (in that
per-branch order) wins. -/
theorem extractor_strategy_order (s : String) :
    (∀ g1 g0, fenceMatch s = some (g1, g0) →
      extractFenced s = jsParse (if g1 = "" then g0 else g1)) ∧
    (fenceMatch s = none → ∀ m, braceMatch s = some m → extractFenced s = jsParse m) ∧
    (fenceMatch s = none → braceMatch s = none → extractFenced s = jsParse s) ∧
    ((jsParse s).isSome = true → extractSearchOR s = jsParse s) ∧
    (jsParse s = none → ∀ m, braceMatch s = some m → extractSearchOR s = jsParse m) ∧
    (jsParse s = none → braceMatch s = none → extractSearchOR s = none) := by
  refine ⟨?_, ?_, ?_, ?_, ?_, ?_⟩
  · intro g1 g0 h
    unfold extractFenced
    rw [h]
  · intro h1 m h2
    unfold extractFenced
    rw [h1, h2]
  · intro h1 h2
    unfold extractFenced
    rw [h1, h2]
  · intro h
    unfold extractSearchOR
    cases hp : jsParse s with
    | none => rw [hp] at h; cases h
    | some v => rfl
  · intro h1 m h2
    unfold extractSearchOR
    rw [h1, h2]
  · intro h1 h2
    unfold extractSearchOR
    rw [h1, h2]

/-- Witness for C6: the characterized orders evaluated at concrete
provider texts (a fenced number and a bare number). -/
theorem extractor_strategy_order_witness :
    extractFenced "```json 7 ```" = some (Json.num 7) ∧
    extractSearchOR "9" = some (Json.num 9) := by
  constructor
  · have h := (extractor_strategy_order "```json 7 ```").1 "7" "```json 7 ```" (by decide)
    rw [h]
    decide
  · have h := (extractor_strategy_order "9").2.2.2.1 (by decide)
    rw [h]
    decide

/-! ## C7 -/

/-- C7 counterexample: a provider-produced analysis body (any JSON
object the model answered, here `\x7b foo: 1 \x7d`) and the fallback body of
the same request do not share top-level keys, and the fallback lacks the
requested schema key ingredientSubstitutions. -/
theorem analysis_keys_mismatch_counterexample :
    ((analysisHandler geminiOnly true (FetchOutcome.fetchOk (some recipeEx))
        fooOracle).response.body).keys = ["foo"] ∧
    ((analysisHandler geminiOnly true (FetchOutcome.fetchOk (some recipeEx))
        failOracle).response.body).keys =
      ["healthScore", "nutritionAnalysis", "allergens", "cookingDifficulty"] ∧
    ((analysisHandler geminiOnly true (FetchOutcome.fetchOk (some recipeEx))
        fooOracle).response.body).keys ≠
      ((analysisHandler geminiOnly true (FetchOutcome.fetchOk (some recipeEx))
        failOracle).response.body).keys ∧
    "ingredientSubstitutions" ∉
      ((analysisHandler geminiOnly true (FetchOutcome.fetchOk (some recipeEx))
        failOracle).response.body).keys := by
  exact ⟨by decide, by decide, by decide, by decide⟩

/-- C7 (amended): for every recipe, the analysis fallback's top-level
keys are exactly healthScore, nutritionAnalysis, allergens and
cookingDifficulty — an ordered sublist of the six keys of the
provider-requested schema that omits ingredientSubstitutions and
timeValidation; provider-path bodies are returned unnormalized, so
top-level key equality between the two paths is not enforced. -/
theorem analysis_fallback_schema_keys (r : Recipe) :
    (analysisFallback r).keys =
      ["healthScore", "nutritionAnalysis", "allergens", "cookingDifficulty"] ∧
    List.Sublist (analysisFallback r).keys analysisSchemaKeys ∧
    "ingredientSubstitutions" ∉ (analysisFallback r).keys ∧
    "timeValidation" ∉ (analysisFallback r).keys := by
  have hk : (analysisFallback r).keys =
      ["healthScore", "nutritionAnalysis", "allergens", "cookingDifficulty"] := rfl
  refine ⟨hk, ?_, ?_, ?_⟩
  · rw [hk]; decide
  · rw [hk]; decide
  · rw [hk]; decide

/-! ## C8 -/

/-- C8: two runs of the analysis or modifications handler with identical
request, recipe and credentials, whose provider attempts all fail (for
any two — possibly different — failure patterns), produce identical
responses: the fallback result is a deterministic function of the
already-available structured input, independent of the outside world. -/
theorem fallback_determinism (keys : Keys) (o1 o2 : Nat → Outcome) (r : Recipe) (mt : String)
    (hex1 : chainExhaustedB (analysisSlots keys) o1 = true)
    (hex2 : chainExhaustedB (analysisSlots keys) o2 = true) :
    (analysisHandler keys true (FetchOutcome.fetchOk (some r)) o1).response =
      (analysisHandler keys true (FetchOutcome.fetchOk (some r)) o2).response ∧
    (modificationsHandler keys true (some mt) (FetchOutcome.fetchOk (some r)) o1).response =
      (modificationsHandler keys true (some mt) (FetchOutcome.fetchOk (some r)) o2).response := by
  constructor
  · cases hk : (keys.openRouter || keys.gemini || keys.huggingFace) with
    | false =>
      rw [analysisHandler_resp_nokeys keys o1 _ hk, analysisHandler_resp_nokeys keys o2 _ hk]
    | true =>
      rw [analysisHandler_resp_200 keys o1 r hk hex1, analysisHandler_resp_200 keys o2 r hk hex2]
  · cases hmt : (mt = "dietary" || mt = "simplify") with
    | false =>
      rw [modificationsHandler_resp_badtype keys o1 _ mt hmt,
          modificationsHandler_resp_badtype keys o2 _ mt hmt]
    | true =>
      cases hk : (keys.openRouter || keys.gemini || keys.huggingFace) with
      | false =>
        rw [modificationsHandler_resp_nokeys keys o1 _ mt hmt hk,
            modificationsHandler_resp_nokeys keys o2 _ mt hmt hk]
      | true =>
        rw [modificationsHandler_resp_200 keys o1 r mt hmt hk hex1,
            modificationsHandler_resp_200 keys o2 r mt hmt hk hex2]

/-- Witness for C8: a throwing oracle and a non-ok-status oracle yield
byte-identical responses on both endpoints. -/
theorem fallback_determinism_witness :
    (analysisHandler orGroq true (FetchOutcome.fetchOk (some recipeEx)) failOracle).response =
      (analysisHandler orGroq true (FetchOutcome.fetchOk (some recipeEx)) badStatusOracle).response ∧
    (modificationsHandler orGroq true (some "simplify")
        (FetchOutcome.fetchOk (some recipeEx)) failOracle).response =
      (modificationsHandler orGroq true (some "simplify")
        (FetchOutcome.fetchOk (some recipeEx)) badStatusOracle).response :=
  fallback_determinism orGroq failOracle badStatusOracle recipeEx "simplify"
    (by decide) (by decide)

/-! ## C9 -/

/-- C9: every ai/search response with status 200 carries
`aiOptimized: true` in its body — the flag is a literal of the success
body, so it also appears when every provider failed and the parameters
came from the simple fallback, and never distinguishes a live-model
result from the degraded one. -/
theorem search_200_has_aiOptimized (keys : Keys) (query : Option String)
    (oracle : Nat → Outcome) (api : SearchApiOutcome)
    (h : (searchHandler keys query oracle api).response.status = 200) :
    ((searchHandler keys query oracle api).response.body).get? "aiOptimized" =
      some (Json.bool true) := by
  cases query with
  | none => simp [searchHandler, jsonResponse] at h
  | some q =>
    simp only [searchHandler] at h ⊢
    by_cases h1 : q = "" ∨ (jsTrim q).length < 3
    · rw [if_pos h1] at h
      simp [jsonResponse] at h
    · rw [if_neg h1] at h ⊢
      cases hk : (keys.openRouter || keys.gemini || keys.groq) with
      | false =>
        rw [hk] at h
        simp [jsonResponse] at h
      | true =>
        rw [hk] at h
        simp only [Bool.not_true, Bool.false_eq_true, if_false] at h ⊢
        cases api with
        | apiThrow msg => simp [jsonResponse] at h
        | apiOk res => rfl

/-- Witness for C9: a request whose providers all fail still answers 200
with the flag set. -/
theorem search_200_has_aiOptimized_witness :
    ((searchHandler groqOnly (some "vegan pasta") failOracle
        (SearchApiOutcome.apiOk emptyResults)).response.body).get? "aiOptimized" =
      some (Json.bool true) :=
  search_200_has_aiOptimized groqOnly (some "vegan pasta") failOracle
    (SearchApiOutcome.apiOk emptyResults) (by decide)

/-! ## C10 -/

/-- C10: the analysis fallback's healthScore.score is
`recipeInfo.healthScore || 50`; in particular every recipe whose own
health score is 0 or missing is reported with score 50 — a true zero
score is silently replaced by the default. -/
theorem fallback_healthScore_or_default (r : Recipe) :
    ((analysisFallback r).get? "healthScore").bind (fun j => j.get? "score") =
      some (Json.num (jsOrInt r.healthScore 50)) ∧
    (r.healthScore = some 0 ∨ r.healthScore = none →
      ((analysisFallback r).get? "healthScore").bind (fun j => j.get? "score") =
        some (Json.num 50)) := by
  have base : ((analysisFallback r).get? "healthScore").bind (fun j => j.get? "score") =
      some (Json.num (jsOrInt r.healthScore 50)) := rfl
  refine ⟨base, ?_⟩
  intro h
  rw [base]
  rcases h with h | h <;> rw [h] <;> rfl

/-- Witness for C10 at a recipe whose own health score is zero. -/
theorem fallback_healthScore_or_default_witness :
    ((analysisFallback recipeZeroScore).get? "healthScore").bind (fun j => j.get? "score") =
      some (Json.num 50) :=
  (fallback_healthScore_or_default recipeZeroScore).2 (Or.inl rfl)

end RecipeAI
